import Mathlib

/-!
Verification of `baal/active/active_loop.py` (`ActiveLearningLoop.step`).

The single source file defines one substantive operation, `step`, which

  1. resolves a working pool (either explicitly supplied, or taken from the
     dataset and possibly randomly subsampled down to `max_sample` elements,
     keeping an index map back into the original pool),
  2. calls `get_probabilities` on the working pool,
  3. if the result is usable (not `None`, and either a generator or a
     non-empty dense array), calls `heuristic.get_ranks` on it,
  4. translates the ranked indices through the index map when one exists,
  5. optionally dumps an uncertainty snapshot to
     `<folder>/uncertainty_pool=<P>_labelled=<L>.pkl`,
  6. labels the first `ndata_to_label` ranked indices and returns `True`
     when the ranking is non-empty, otherwise returns `False`.

We embed `step` as a pure function producing a `StepResult` record of
observations: the boolean return value, the pool the Probability Source was
invoked on (if at all), the probability structure handed to the heuristic
(if reached), the index list handed to `dataset.label` (if reached), and the
snapshot record handed to the pickle sink (if configured and reached).
The process-wide random source consumed by `np.random.choice` is made an
explicit argument `draw`: the list of positions the call returns; numpy's
contract (distinct in-range positions, `max_sample` many) becomes a
hypothesis `validDraw` where a claim needs it.

The `ActiveLearningDataset` collaborator is not part of the source file.
Modelled from the spec: the Pool Provider exposes `pool` (the current
unlabelled pool), `len(dataset)` (total labelled count) and `state_dict()`
(an opaque blob); `label(indices)` mutates only the dataset, so labelling
behaviour is observed here as the argument passed to `label`.
-/

namespace ActiveLoop

/-- Result of the Probability Source (`get_probabilities`): either a dense
array (`len()` is defined on it) or a generator (`types.GeneratorType`),
whose emptiness cannot be checked without consuming it.  `None` is
represented by wrapping in `Option` at the call site. -/
inductive Probs (π γ : Type) where
  | dense (arr : List π)
  | gen (g : γ)
deriving DecidableEq, Repr

/-- Modelled from the spec: the Pool Provider (`ActiveLearningDataset`, not
part of the source file).  `pool` is the current unlabelled pool,
`labelledCount` is `len(dataset)` (the total labelled count), `state` is the
opaque `state_dict()` blob. -/
structure Dataset (α σ : Type) where
  pool : List α
  labelledCount : Nat
  state : σ
deriving DecidableEq, Repr

/-- The configuration held by an `ActiveLearningLoop` instance, with the
collaborators as opaque functions (`get_probabilities` returns `none` for a
Python `None`; `heuristic` is `heuristic.get_ranks`, returning the pair
`(to_label, uncertainty)`). -/
structure Loop (α π γ σ υ : Type) where
  dataset : Dataset α σ
  getProbabilities : List α → Option (Probs π γ)
  heuristic : Probs π γ → List Nat × List υ
  ndataToLabel : Nat
  maxSample : Int
  uncertaintyFolder : Option String

/-- The record pickled to disk in the snapshot branch: file path and the
mapping `{"indices": ..., "uncertainty": ..., "dataset": ...}`. -/
structure SnapshotRecord (σ υ : Type) where
  path : String
  indices : Option (List Nat)
  uncertainty : List υ
  datasetState : σ
deriving DecidableEq, Repr

/-- Observations of one `step()` call: the returned boolean, the working
pool `get_probabilities` was invoked on (`none` when it was never invoked),
the probability structure passed to `heuristic.get_ranks` (`none` when the
heuristic was never invoked), the list passed to `dataset.label` (`none`
when `label` was never invoked), and the snapshot record written (`none`
when no file was written). -/
structure StepResult (α π γ σ υ : Type) where
  continueTraining : Bool
  probsCalledOn : Option (List α)
  heuristicCalledOn : Option (Probs π γ)
  labelled : Option (List Nat)
  snapshot : Option (SnapshotRecord σ υ)

/-- `probs is not None and (isinstance(probs, types.GeneratorType) or
len(probs) > 0)`, for the non-`None` part. -/
def probsUsable {π γ : Type} : Probs π γ → Bool
  | Probs.gen _ => true
  | Probs.dense arr => decide (0 < arr.length)

/-- Numpy fancy indexing `idx[np.array(ranks)]`: element-wise gather. -/
def gather (idx : List Nat) (ranks : List Nat) : List Nat :=
  ranks.map (fun i => idx.getD i 0)

/-- `to_label = indices[np.array(to_label)]` when an index map exists,
identity otherwise (explicit pool: `indices is None`). -/
def translate (indices : Option (List Nat)) (ranks : List Nat) : List Nat :=
  match indices with
  | some idx => gather idx ranks
  | none => ranks

/-- The snapshot file name
`f"uncertainty_pool={len(pool)}" f"_labelled={len(self.dataset)}.pkl"`. -/
def uncertaintyName (poolLen labelledLen : Nat) : String :=
  "uncertainty_pool=" ++ toString poolLen ++ "_labelled=" ++ toString labelledLen ++ ".pkl"

/-- Pool resolution (lines 58-68 of `active_loop.py`): returns the working
pool together with the index map (`none` mirrors Python's `indices = None`
for an explicit pool; in the internally-resolved empty-pool branch `indices`
is left unbound in Python and never read, so any value is faithful — we
use `none`).  `draw` stands for the value `np.random.choice(len(pool),
max_sample, replace=False)` returns, and `Subset(pool, indices)` is the
gather of the pool at those positions. -/
def resolvePool {α : Type} [Inhabited α] (datasetPool : List α) (maxSample : Int)
    (draw : List Nat) (poolArg : Option (List α)) : List α × Option (List Nat) :=
  match poolArg with
  | some p => (p, none)
  | none =>
    if 0 < datasetPool.length then
      if maxSample ≠ -1 ∧ maxSample < (datasetPool.length : Int) then
        (draw.map (fun i => datasetPool.getD i default), some draw)
      else
        (datasetPool, some (List.range datasetPool.length))
    else
      (datasetPool, none)

/-- The ranking stage of `step` (lines 74-92): heuristic call, index
translation, optional snapshot, labelling of `to_label[:ndata_to_label]`. -/
def rankStage {α π γ σ υ : Type} (L : Loop α π γ σ υ) (pool : List α)
    (indices : Option (List Nat)) (probs : Probs π γ) : StepResult α π γ σ υ :=
  let r := L.heuristic probs
  let toLabel := translate indices r.1
  let snap := L.uncertaintyFolder.map (fun folder =>
    { path := folder ++ "/" ++ uncertaintyName pool.length L.dataset.labelledCount,
      indices := indices,
      uncertainty := r.2,
      datasetState := L.dataset.state })
  if 0 < toLabel.length then
    { continueTraining := true, probsCalledOn := some pool,
      heuristicCalledOn := some probs,
      labelled := some (toLabel.take L.ndataToLabel), snapshot := snap }
  else
    { continueTraining := false, probsCalledOn := some pool,
      heuristicCalledOn := some probs, labelled := none, snapshot := snap }

/-- `ActiveLearningLoop.step(pool)` (lines 47-92), with the random draw
explicit.  Mirrors the source control flow exactly: resolve the working
pool, bail out on an empty pool without calling the Probability Source,
bail out on `None` or an empty dense probability result without calling the
heuristic, otherwise run the ranking stage. -/
def step {α π γ σ υ : Type} [Inhabited α] (L : Loop α π γ σ υ) (draw : List Nat)
    (poolArg : Option (List α)) : StepResult α π γ σ υ :=
  let pr := resolvePool L.dataset.pool L.maxSample draw poolArg
  if 0 < pr.1.length then
    match L.getProbabilities pr.1 with
    | none =>
      { continueTraining := false, probsCalledOn := some pr.1,
        heuristicCalledOn := none, labelled := none, snapshot := none }
    | some probs =>
      if probsUsable probs then
        rankStage L pr.1 pr.2 probs
      else
        { continueTraining := false, probsCalledOn := some pr.1,
          heuristicCalledOn := none, labelled := none, snapshot := none }
  else
    { continueTraining := false, probsCalledOn := none,
      heuristicCalledOn := none, labelled := none, snapshot := none }

/-- The contract of `np.random.choice(n, k, replace=False)`: `k` positions,
pairwise distinct, all in `[0, n)`. -/
def validDraw (n k : Nat) (draw : List Nat) : Prop :=
  draw.length = k ∧ draw.Nodup ∧ ∀ i ∈ draw, i < n

/-! ## Exception-propagating embedding

`step` contains no `try`/`except`, so any exception a collaborator raises
escapes it unchanged.  To state that, we re-embed the same control flow in
the `Except ε` monad, with every collaborator call fallible: this is the
faithful translation of straight-line Python code where each call may
throw. -/

/-- The loop configuration with fallible collaborators, for the
error-propagation claim.  `labelCall` is `dataset.label`, `stateDict` is
`dataset.state_dict()`, `dump` is the `pickle.dump(..., open(...))` sink. -/
structure LoopE (ε α π γ σ υ : Type) where
  datasetPool : List α
  labelledCount : Nat
  stateDict : Except ε σ
  labelCall : List Nat → Except ε Unit
  getProbabilities : List α → Except ε (Option (Probs π γ))
  heuristic : Probs π γ → Except ε (List Nat × List υ)
  dump : SnapshotRecord σ υ → Except ε Unit
  ndataToLabel : Nat
  maxSample : Int
  uncertaintyFolder : Option String

/-- `step` in the `Except` monad: identical control flow to `step`, every
collaborator call threaded through `Except` with no handler anywhere — the
first error encountered is returned unchanged, exactly as an uncaught
Python exception unwinds straight-line code. -/
def stepE {ε α π γ σ υ : Type} [Inhabited α] (L : LoopE ε α π γ σ υ)
    (draw : List Nat) (poolArg : Option (List α)) : Except ε Bool :=
  let pr := resolvePool L.datasetPool L.maxSample draw poolArg
  if 0 < pr.1.length then
    match L.getProbabilities pr.1 with
    | Except.error err => Except.error err
    | Except.ok none => Except.ok false
    | Except.ok (some probs) =>
      if probsUsable probs then
        match L.heuristic probs with
        | Except.error err => Except.error err
        | Except.ok r =>
          let toLabel := translate pr.2 r.1
          let snapStep : Except ε Unit :=
            match L.uncertaintyFolder with
            | some folder =>
              match L.stateDict with
              | Except.error err => Except.error err
              | Except.ok st =>
                L.dump
                  { path := folder ++ "/" ++ uncertaintyName pr.1.length L.labelledCount,
                    indices := pr.2, uncertainty := r.2, datasetState := st }
            | none => Except.ok ()
          match snapStep with
          | Except.error err => Except.error err
          | Except.ok _ =>
            if 0 < toLabel.length then
              match L.labelCall (toLabel.take L.ndataToLabel) with
              | Except.error err => Except.error err
              | Except.ok _ => Except.ok true
            else
              Except.ok false
      else
        Except.ok false
  else
    Except.ok false

/-! ## Concrete instances used in scenario parts of the claims -/

/-- Heuristic for the subsampling scenario of §8: always ranks
`[3, 0, 1, 4, 2]` with matching uncertainties. -/
def scenarioHeuristic : Probs Nat Nat → List Nat × List Int :=
  fun _ => ([3, 0, 1, 4, 2], [9, 8, 7, 6, 5])

/-- Loop for the subsampling scenario of §8: internal pool of 10 samples,
`max_sample = 5`, `ndata_to_label = 2`, dense probabilities always
available. -/
def scenarioLoop : Loop Nat Nat Nat Nat Int :=
  { dataset := { pool := List.range 10, labelledCount := 0, state := 0 },
    getProbabilities := fun p => some (Probs.dense p),
    heuristic := scenarioHeuristic,
    ndataToLabel := 2,
    maxSample := 5,
    uncertaintyFolder := none }

/-- A concrete draw `np.random.choice(10, 5, replace=False)` could return. -/
def scenarioDraw : List Nat := [7, 2, 9, 0, 5]

/-- Loop for the snapshot scenario of §8: working pool of 8 samples (no
subsampling), 20 samples already labelled, snapshot storage enabled,
heuristic returning one uncertainty per working-pool sample. -/
def snapshotLoop : Loop Nat Nat Nat Nat Int :=
  { dataset := { pool := List.range 8, labelledCount := 20, state := 3 },
    getProbabilities := fun p => some (Probs.dense p),
    heuristic := fun _ => ([5, 1, 0, 7, 2, 3, 6, 4], [8, 7, 6, 5, 4, 3, 2, 1]),
    ndataToLabel := 1,
    maxSample := -1,
    uncertaintyFolder := some "unc" }

/-- A loop whose heuristic returns an empty ranking on a non-empty pool
with usable dense probabilities: the fourth way `step` returns `False`
with no labelling. -/
def emptyRankLoop : Loop Nat Nat Nat Nat Int :=
  { dataset := { pool := [0, 1, 2], labelledCount := 0, state := 0 },
    getProbabilities := fun p => some (Probs.dense p),
    heuristic := fun _ => ([], []),
    ndataToLabel := 1,
    maxSample := -1,
    uncertaintyFolder := some "unc" }

/-- Loop whose internal pool is empty (everything already labelled). -/
def emptyPoolLoop : Loop Nat Nat Nat Nat Int :=
  { dataset := { pool := [], labelledCount := 30, state := 0 },
    getProbabilities := fun p => some (Probs.dense p),
    heuristic := fun _ => ([0], [1]),
    ndataToLabel := 1,
    maxSample := -1,
    uncertaintyFolder := none }

/-- Loop whose Probability Source returns a generator (lazy stream). -/
def genLoop : Loop Nat Nat Nat Nat Int :=
  { dataset := { pool := [0, 1], labelledCount := 0, state := 0 },
    getProbabilities := fun _ => some (Probs.gen 7),
    heuristic := fun _ => ([1, 0], [2, 1]),
    ndataToLabel := 1,
    maxSample := -1,
    uncertaintyFolder := none }

/-- Fallible-collaborator loop whose Probability Source always raises. -/
def errorLoop : LoopE String Nat Nat Nat Nat Int :=
  { datasetPool := [0, 1, 2],
    labelledCount := 0,
    stateDict := Except.ok 0,
    labelCall := fun _ => Except.ok (),
    getProbabilities := fun _ => Except.error "boom",
    heuristic := fun _ => Except.ok ([0], [1]),
    dump := fun _ => Except.ok (),
    ndataToLabel := 1,
    maxSample := -1,
    uncertaintyFolder := none }

/-- Fallible-collaborator loop with snapshot storage enabled whose `label`
call always raises, while `state_dict` and the snapshot sink succeed. -/
def labelErrorLoop : LoopE String Nat Nat Nat Nat Int :=
  { datasetPool := [0, 1, 2],
    labelledCount := 4,
    stateDict := Except.ok 0,
    labelCall := fun _ => Except.error "label failed",
    getProbabilities := fun p => Except.ok (some (Probs.dense p)),
    heuristic := fun _ => Except.ok ([2, 0, 1], [3, 2, 1]),
    dump := fun _ => Except.ok (),
    ndataToLabel := 1,
    maxSample := -1,
    uncertaintyFolder := some "unc" }

/-! ## Helper lemmas -/

theorem gather_length (idx ranks : List Nat) : (gather idx ranks).length = ranks.length := by
  simp [gather]

theorem gather_getD (idx : List Nat) (ranks : List Nat) (k : Nat) (hk : k < ranks.length) :
    (gather idx ranks).getD k 0 = idx.getD (ranks.getD k 0) 0 := by
  induction ranks generalizing k with
  | nil => simp at hk
  | cons a t ih =>
    cases k with
    | zero => rfl
    | succ k =>
      have hk' : k < t.length := by simpa using hk
      simpa [gather] using ih k hk'

theorem translate_length (indices : Option (List Nat)) (ranks : List Nat) :
    (translate indices ranks).length = ranks.length := by
  cases indices with
  | none => rfl
  | some idx => simp [translate, gather_length]

theorem range_getD (n i : Nat) (h : i < n) : (List.range n).getD i 0 = i := by
  rw [List.getD_eq_getElem?_getD, List.getElem?_range h]
  rfl

theorem translate_range (n : Nat) (ranks : List Nat) (h : ∀ i ∈ ranks, i < n) :
    translate (some (List.range n)) ranks = ranks := by
  show ranks.map (fun i => (List.range n).getD i 0) = ranks
  have : ∀ i ∈ ranks, (fun i => (List.range n).getD i 0) i = id i := by
    intro i hi
    simpa using range_getD n i (h i hi)
  rw [List.map_congr_left this, List.map_id]

theorem rankStage_probsCalledOn {α π γ σ υ : Type} (L : Loop α π γ σ υ) (pool : List α)
    (indices : Option (List Nat)) (probs : Probs π γ) :
    (rankStage L pool indices probs).probsCalledOn = some pool := by
  dsimp [rankStage]
  split <;> rfl

theorem rankStage_heuristicCalledOn {α π γ σ υ : Type} (L : Loop α π γ σ υ) (pool : List α)
    (indices : Option (List Nat)) (probs : Probs π γ) :
    (rankStage L pool indices probs).heuristicCalledOn = some probs := by
  dsimp [rankStage]
  split <;> rfl

theorem rankStage_snapshot {α π γ σ υ : Type} (L : Loop α π γ σ υ) (pool : List α)
    (indices : Option (List Nat)) (probs : Probs π γ) :
    (rankStage L pool indices probs).snapshot = L.uncertaintyFolder.map (fun folder =>
      { path := folder ++ "/" ++ uncertaintyName pool.length L.dataset.labelledCount,
        indices := indices,
        uncertainty := (L.heuristic probs).2,
        datasetState := L.dataset.state }) := by
  dsimp [rankStage]
  split <;> rfl

theorem rankStage_labelled_of_pos {α π γ σ υ : Type} (L : Loop α π γ σ υ) (pool : List α)
    (indices : Option (List Nat)) (probs : Probs π γ)
    (h : 0 < (L.heuristic probs).1.length) :
    (rankStage L pool indices probs).continueTraining = true
    ∧ (rankStage L pool indices probs).labelled =
        some ((translate indices (L.heuristic probs).1).take L.ndataToLabel) := by
  have hlen : 0 < (translate indices (L.heuristic probs).1).length := by
    rw [translate_length]; exact h
  dsimp [rankStage]
  rw [if_pos hlen]
  exact ⟨rfl, rfl⟩

theorem rankStage_labelled_of_empty {α π γ σ υ : Type} (L : Loop α π γ σ υ) (pool : List α)
    (indices : Option (List Nat)) (probs : Probs π γ)
    (h : (L.heuristic probs).1 = []) :
    (rankStage L pool indices probs).continueTraining = false
    ∧ (rankStage L pool indices probs).labelled = none := by
  have hlen : ¬ 0 < (translate indices (L.heuristic probs).1).length := by
    rw [translate_length, h]
    simp
  dsimp [rankStage]
  rw [if_neg hlen]
  exact ⟨rfl, rfl⟩

theorem step_of_empty_pool {α π γ σ υ : Type} [Inhabited α] (L : Loop α π γ σ υ)
    (draw : List Nat) (poolArg : Option (List α))
    (h0 : (resolvePool L.dataset.pool L.maxSample draw poolArg).1.length = 0) :
    step L draw poolArg = ⟨false, none, none, none, none⟩ := by
  unfold step
  rw [if_neg (by omega)]

theorem step_of_probs_none {α π γ σ υ : Type} [Inhabited α] (L : Loop α π γ σ υ)
    (draw : List Nat) (poolArg : Option (List α))
    (h0 : 0 < (resolvePool L.dataset.pool L.maxSample draw poolArg).1.length)
    (hpv : L.getProbabilities (resolvePool L.dataset.pool L.maxSample draw poolArg).1 = none) :
    step L draw poolArg =
      ⟨false, some (resolvePool L.dataset.pool L.maxSample draw poolArg).1,
        none, none, none⟩ := by
  unfold step
  rw [if_pos h0, hpv]

theorem step_of_unusable {α π γ σ υ : Type} [Inhabited α] (L : Loop α π γ σ υ)
    (draw : List Nat) (poolArg : Option (List α)) (probs : Probs π γ)
    (h0 : 0 < (resolvePool L.dataset.pool L.maxSample draw poolArg).1.length)
    (hpv : L.getProbabilities (resolvePool L.dataset.pool L.maxSample draw poolArg).1
      = some probs)
    (hu : ¬ probsUsable probs = true) :
    step L draw poolArg =
      ⟨false, some (resolvePool L.dataset.pool L.maxSample draw poolArg).1,
        none, none, none⟩ := by
  unfold step
  rw [if_pos h0, hpv]
  dsimp only
  rw [if_neg hu]

theorem step_eq_rankStage {α π γ σ υ : Type} [Inhabited α] (L : Loop α π γ σ υ)
    (draw : List Nat) (poolArg : Option (List α)) (probs : Probs π γ)
    (hpool : 0 < (resolvePool L.dataset.pool L.maxSample draw poolArg).1.length)
    (hp : L.getProbabilities (resolvePool L.dataset.pool L.maxSample draw poolArg).1 = some probs)
    (hu : probsUsable probs = true) :
    step L draw poolArg =
      rankStage L (resolvePool L.dataset.pool L.maxSample draw poolArg).1
        (resolvePool L.dataset.pool L.maxSample draw poolArg).2 probs := by
  unfold step
  rw [if_pos hpool, hp]
  dsimp only
  rw [if_pos hu]

theorem resolvePool_subsample {α : Type} [Inhabited α] (datasetPool : List α) (maxSample : Int)
    (draw : List Nat) (hne : 0 < datasetPool.length)
    (hsub : maxSample ≠ -1 ∧ maxSample < (datasetPool.length : Int)) :
    resolvePool datasetPool maxSample draw none =
      (draw.map (fun i => datasetPool.getD i default), some draw) := by
  unfold resolvePool
  rw [if_pos hne, if_pos hsub]

theorem resolvePool_full {α : Type} [Inhabited α] (datasetPool : List α) (maxSample : Int)
    (draw : List Nat) (hne : 0 < datasetPool.length)
    (hfull : maxSample = -1 ∨ (datasetPool.length : Int) ≤ maxSample) :
    resolvePool datasetPool maxSample draw none =
      (datasetPool, some (List.range datasetPool.length)) := by
  have hns : ¬ (maxSample ≠ -1 ∧ maxSample < (datasetPool.length : Int)) := by
    rcases hfull with h | h
    · exact fun hc => hc.1 h
    · exact fun hc => absurd hc.2 (not_lt.mpr h)
  unfold resolvePool
  rw [if_pos hne, if_neg hns]

/-! ## Claims -/

/-- C1: when `step()` resolves the pool internally and a subsample was drawn,
the ranked indices are translated by element-wise gather through the index
map: length and ranking order are preserved and the entry at rank `k` is
`index_map[to_label[k]]`; the labelled indices are the first
`ndata_to_label` of the gathered list.  In the §8 scenario (pool of 10,
`max_sample = 5`, `ndata_to_label = 2`, ranks `[3,0,1,4,2]`) the two
labelled original-pool indices are `index_map[3]` and `index_map[0]`, in
that order. -/
theorem step_subsample_translates_by_gather {α π γ σ υ : Type} [Inhabited α]
    (L : Loop α π γ σ υ) (draw : List Nat) (probs : Probs π γ)
    (hne : 0 < L.dataset.pool.length)
    (hsub : L.maxSample ≠ -1 ∧ L.maxSample < (L.dataset.pool.length : Int))
    (hdraw : 0 < draw.length)
    (hp : L.getProbabilities (draw.map (fun i => L.dataset.pool.getD i default)) = some probs)
    (hu : probsUsable probs = true)
    (hrk : 0 < (L.heuristic probs).1.length) :
    ((step L draw none).labelled =
        some ((gather draw (L.heuristic probs).1).take L.ndataToLabel)
      ∧ (gather draw (L.heuristic probs).1).length = (L.heuristic probs).1.length
      ∧ ∀ k, k < (L.heuristic probs).1.length →
          (gather draw (L.heuristic probs).1).getD k 0 =
            draw.getD ((L.heuristic probs).1.getD k 0) 0)
    ∧ (step scenarioLoop scenarioDraw none).labelled =
        some [scenarioDraw.getD 3 0, scenarioDraw.getD 0 0] := by
  have hres := resolvePool_subsample L.dataset.pool L.maxSample draw hne hsub
  have hpool : 0 < (resolvePool L.dataset.pool L.maxSample draw none).1.length := by
    rw [hres]
    simpa using hdraw
  have hp' : L.getProbabilities (resolvePool L.dataset.pool L.maxSample draw none).1
      = some probs := by rw [hres]; exact hp
  have hstep := step_eq_rankStage L draw none probs hpool hp' hu
  refine ⟨⟨?_, gather_length draw _, fun k hk => gather_getD draw _ k hk⟩, by rfl⟩
  rw [hstep, hres, (rankStage_labelled_of_pos L _ _ probs hrk).2]
  rfl

/-- Witness for C1: in the concrete §8 scenario with draw `[7,2,9,0,5]`,
`step` labels `[index_map[3], index_map[0]] = [0, 7]`. -/
theorem step_subsample_translates_by_gather_witness :
    (step scenarioLoop scenarioDraw none).labelled =
      some [scenarioDraw.getD 3 0, scenarioDraw.getD 0 0] :=
  (step_subsample_translates_by_gather scenarioLoop scenarioDraw
    (Probs.dense [7, 2, 9, 0, 5]) (by decide) (by decide) (by decide)
    (by rfl) (by rfl) (by decide)).2

/-- C2: whenever the ranking stage is reached and the heuristic's `to_label`
is non-empty, `step()` hands `dataset.label` exactly the first
`min(ndata_to_label, len(to_label))` entries of the translated `to_label`,
in ranking order, and returns `True`. -/
theorem step_labels_top_ranked {α π γ σ υ : Type} [Inhabited α]
    (L : Loop α π γ σ υ) (draw : List Nat) (poolArg : Option (List α)) (probs : Probs π γ)
    (hpool : 0 < (resolvePool L.dataset.pool L.maxSample draw poolArg).1.length)
    (hp : L.getProbabilities (resolvePool L.dataset.pool L.maxSample draw poolArg).1 = some probs)
    (hu : probsUsable probs = true)
    (hrk : 0 < (L.heuristic probs).1.length) :
    (step L draw poolArg).continueTraining = true
    ∧ (step L draw poolArg).labelled =
        some ((translate (resolvePool L.dataset.pool L.maxSample draw poolArg).2
          (L.heuristic probs).1).take L.ndataToLabel)
    ∧ ((translate (resolvePool L.dataset.pool L.maxSample draw poolArg).2
          (L.heuristic probs).1).take L.ndataToLabel).length =
        min L.ndataToLabel (L.heuristic probs).1.length := by
  have hstep := step_eq_rankStage L draw poolArg probs hpool hp hu
  have hlab := rankStage_labelled_of_pos L
    (resolvePool L.dataset.pool L.maxSample draw poolArg).1
    (resolvePool L.dataset.pool L.maxSample draw poolArg).2 probs hrk
  refine ⟨by rw [hstep]; exact hlab.1, by rw [hstep]; exact hlab.2, ?_⟩
  rw [List.length_take, translate_length]

/-- Witness for C2: in the §8 scenario, `step` returns `True` and labels
`min(2, 5) = 2` samples. -/
theorem step_labels_top_ranked_witness :
    (step scenarioLoop scenarioDraw none).continueTraining = true
    ∧ (step scenarioLoop scenarioDraw none).labelled =
        some ((translate (resolvePool scenarioLoop.dataset.pool scenarioLoop.maxSample
          scenarioDraw none).2
          (scenarioLoop.heuristic (Probs.dense [7, 2, 9, 0, 5])).1).take
            scenarioLoop.ndataToLabel)
    ∧ ((translate (resolvePool scenarioLoop.dataset.pool scenarioLoop.maxSample
          scenarioDraw none).2
          (scenarioLoop.heuristic (Probs.dense [7, 2, 9, 0, 5])).1).take
            scenarioLoop.ndataToLabel).length =
        min scenarioLoop.ndataToLabel
          (scenarioLoop.heuristic (Probs.dense [7, 2, 9, 0, 5])).1.length :=
  step_labels_top_ranked scenarioLoop scenarioDraw none (Probs.dense [7, 2, 9, 0, 5])
    (by decide) (by rfl) (by rfl) (by decide)

/-- C3: for an internally resolved non-empty pool with
`0 < max_sample < len(pool)` and a draw satisfying `np.random.choice`'s
contract, the working pool handed to the Probability Source has exactly
`max_sample` elements, the index map is exactly the drawn positions, and
those positions are pairwise distinct and in `[0, len(pool))`. -/
theorem step_subsample_pool_size {α π γ σ υ : Type} [Inhabited α]
    (L : Loop α π γ σ υ) (draw : List Nat) (k : Nat)
    (hms : L.maxSample = (k : Int)) (hkpos : 0 < k)
    (hlt : (k : Int) < (L.dataset.pool.length : Int))
    (hv : validDraw L.dataset.pool.length k draw) :
    (step L draw none).probsCalledOn =
        some (draw.map (fun i => L.dataset.pool.getD i default))
    ∧ (draw.map (fun i => L.dataset.pool.getD i default)).length = k
    ∧ (resolvePool L.dataset.pool L.maxSample draw none).2 = some draw
    ∧ draw.Nodup ∧ ∀ i ∈ draw, i < L.dataset.pool.length := by
  obtain ⟨hlen, hnd, hin⟩ := hv
  have hne : 0 < L.dataset.pool.length := by
    have : (0 : Int) < (L.dataset.pool.length : Int) :=
      lt_trans (by exact_mod_cast hkpos) hlt
    exact_mod_cast this
  have hsub : L.maxSample ≠ -1 ∧ L.maxSample < (L.dataset.pool.length : Int) := by
    constructor
    · rw [hms]
      intro hc
      omega
    · rw [hms]; exact hlt
  have hres := resolvePool_subsample L.dataset.pool L.maxSample draw hne hsub
  have hwplen : (draw.map (fun i => L.dataset.pool.getD i default)).length = k := by
    simpa using hlen
  have hpool : 0 < (resolvePool L.dataset.pool L.maxSample draw none).1.length := by
    rw [hres]
    simpa [hlen] using hkpos
  refine ⟨?_, hwplen, by rw [hres], hnd, hin⟩
  unfold step
  rw [if_pos hpool]
  cases hpv : L.getProbabilities (resolvePool L.dataset.pool L.maxSample draw none).1 with
  | none => simp [hres]
  | some probs =>
    dsimp only
    by_cases hu : probsUsable probs = true
    · rw [if_pos hu, rankStage_probsCalledOn, hres]
    · rw [if_neg hu]
      rw [hres]

/-- Witness for C3: `max_sample = 5` on a pool of 10, with draw
`[7,2,9,0,5]`. -/
theorem step_subsample_pool_size_witness :
    (step scenarioLoop scenarioDraw none).probsCalledOn =
        some (scenarioDraw.map (fun i => scenarioLoop.dataset.pool.getD i default))
    ∧ (scenarioDraw.map (fun i => scenarioLoop.dataset.pool.getD i default)).length = 5
    ∧ (resolvePool scenarioLoop.dataset.pool scenarioLoop.maxSample scenarioDraw none).2 =
        some scenarioDraw
    ∧ scenarioDraw.Nodup ∧ ∀ i ∈ scenarioDraw, i < scenarioLoop.dataset.pool.length :=
  step_subsample_pool_size scenarioLoop scenarioDraw 5 (by decide) (by decide)
    (by decide) ⟨by decide, by decide, by decide⟩

/-- C4: for an internally resolved non-empty pool with `max_sample == -1` or
`max_sample >= len(pool)`, the working pool is the full pool and the index
map is the identity `[0 .. len(pool))`; translation through it is a no-op
(the heuristic's ranks being pool indices), so the labelled indices are the
heuristic's raw ranked indices. -/
theorem step_full_pool_identity_map {α π γ σ υ : Type} [Inhabited α]
    (L : Loop α π γ σ υ) (draw : List Nat) (probs : Probs π γ)
    (hne : 0 < L.dataset.pool.length)
    (hfull : L.maxSample = -1 ∨ (L.dataset.pool.length : Int) ≤ L.maxSample)
    (hp : L.getProbabilities L.dataset.pool = some probs)
    (hu : probsUsable probs = true)
    (hrk : 0 < (L.heuristic probs).1.length)
    (hin : ∀ i ∈ (L.heuristic probs).1, i < L.dataset.pool.length) :
    resolvePool L.dataset.pool L.maxSample draw none =
        (L.dataset.pool, some (List.range L.dataset.pool.length))
    ∧ (step L draw none).labelled = some ((L.heuristic probs).1.take L.ndataToLabel) := by
  have hres := resolvePool_full L.dataset.pool L.maxSample draw hne hfull
  have hpool : 0 < (resolvePool L.dataset.pool L.maxSample draw none).1.length := by
    rw [hres]; exact hne
  have hp' : L.getProbabilities (resolvePool L.dataset.pool L.maxSample draw none).1
      = some probs := by rw [hres]; exact hp
  have hstep := step_eq_rankStage L draw none probs hpool hp' hu
  refine ⟨hres, ?_⟩
  rw [hstep, hres, (rankStage_labelled_of_pos L _ _ probs hrk).2]
  rw [show (L.dataset.pool, some (List.range L.dataset.pool.length)).2 =
    some (List.range L.dataset.pool.length) from rfl]
  rw [translate_range L.dataset.pool.length _ hin]

/-- Witness for C4: the snapshot-scenario loop has `max_sample = -1`; its
pool of 8 is used whole and the raw ranks are labelled. -/
theorem step_full_pool_identity_map_witness :
    resolvePool snapshotLoop.dataset.pool snapshotLoop.maxSample [] none =
        (snapshotLoop.dataset.pool, some (List.range snapshotLoop.dataset.pool.length))
    ∧ (step snapshotLoop [] none).labelled =
        some ((snapshotLoop.heuristic (Probs.dense (List.range 8))).1.take
          snapshotLoop.ndataToLabel) :=
  step_full_pool_identity_map snapshotLoop [] (Probs.dense (List.range 8))
    (by decide) (Or.inl (by decide)) (by rfl) (by rfl) (by decide) (by decide)

/-- C5 counterexample: on `emptyRankLoop` (internal pool `[0,1,2]`, dense
non-empty probabilities, heuristic ranking empty) `step()` returns `False`
and labels nothing, yet none of the claim's three listed cases holds: the
working pool is non-empty and the Probability Source returns a non-empty
dense array — so "exactly the soft-failure cases" is refuted. -/
theorem step_false_cases_counterexample :
    ((step emptyRankLoop [] none).continueTraining = false
      ∧ (step emptyRankLoop [] none).labelled = none)
    ∧ (resolvePool emptyRankLoop.dataset.pool emptyRankLoop.maxSample [] none).1.length ≠ 0
    ∧ emptyRankLoop.getProbabilities
        (resolvePool emptyRankLoop.dataset.pool emptyRankLoop.maxSample [] none).1 =
        some (Probs.dense [0, 1, 2])
    ∧ probsUsable (Probs.dense [0, 1, 2] : Probs Nat Nat) = true := by
  exact ⟨⟨rfl, rfl⟩, by decide, rfl, rfl⟩

/-- C5 amended: `step()` returns `False` and performs no labelling in
exactly these cases: the working pool is empty; the Probability Source
returns `None`; the Probability Source returns an empty dense array; or the
heuristic's ranking is empty.  Moreover, when the working pool is empty the
Probability Source is never invoked. -/
theorem step_false_iff_soft_failure {α π γ σ υ : Type} [Inhabited α]
    (L : Loop α π γ σ υ) (draw : List Nat) (poolArg : Option (List α)) :
    (((step L draw poolArg).continueTraining = false ∧ (step L draw poolArg).labelled = none)
      ↔ ((resolvePool L.dataset.pool L.maxSample draw poolArg).1.length = 0
        ∨ L.getProbabilities (resolvePool L.dataset.pool L.maxSample draw poolArg).1 = none
        ∨ (∃ arr, L.getProbabilities (resolvePool L.dataset.pool L.maxSample draw poolArg).1 =
            some (Probs.dense arr) ∧ arr = [])
        ∨ (∃ probs, L.getProbabilities (resolvePool L.dataset.pool L.maxSample draw poolArg).1 =
            some probs ∧ probsUsable probs = true ∧ (L.heuristic probs).1 = [])))
    ∧ ((resolvePool L.dataset.pool L.maxSample draw poolArg).1.length = 0 →
        (step L draw poolArg).probsCalledOn = none) := by
  constructor
  · by_cases h0 : 0 < (resolvePool L.dataset.pool L.maxSample draw poolArg).1.length
    · rcases Option.eq_none_or_eq_some
        (L.getProbabilities (resolvePool L.dataset.pool L.maxSample draw poolArg).1) with
        hpv | ⟨probs, hpv⟩
      · rw [step_of_probs_none L draw poolArg h0 hpv]
        exact ⟨fun _ => Or.inr (Or.inl hpv), fun _ => ⟨rfl, rfl⟩⟩
      · by_cases hu : probsUsable probs = true
        · have hstep := step_eq_rankStage L draw poolArg probs h0 hpv hu
          by_cases hrk : (L.heuristic probs).1 = []
          · have hl := rankStage_labelled_of_empty L
              (resolvePool L.dataset.pool L.maxSample draw poolArg).1
              (resolvePool L.dataset.pool L.maxSample draw poolArg).2 probs hrk
            rw [hstep]
            exact ⟨fun _ => Or.inr (Or.inr (Or.inr ⟨probs, hpv, hu, hrk⟩)),
              fun _ => ⟨hl.1, hl.2⟩⟩
          · have hpos : 0 < (L.heuristic probs).1.length :=
              List.length_pos.mpr hrk
            have hl := rankStage_labelled_of_pos L
              (resolvePool L.dataset.pool L.maxSample draw poolArg).1
              (resolvePool L.dataset.pool L.maxSample draw poolArg).2 probs hpos
            rw [hstep]
            constructor
            · intro hc
              obtain ⟨hc1, _⟩ := hc
              rw [hl.1] at hc1
              exact absurd hc1 (by decide)
            · intro hcases
              rcases hcases with h | h | ⟨arr, harr, harr0⟩ | ⟨p, hp, _, hrk0⟩
              · omega
              · rw [hpv] at h
                exact absurd h (by simp)
              · rw [hpv] at harr
                have hpd : probs = Probs.dense arr := Option.some.inj harr
                rw [hpd, harr0] at hu
                simp [probsUsable] at hu
              · rw [hpv] at hp
                have hpp : p = probs := (Option.some.inj hp).symm
                rw [hpp] at hrk0
                exact absurd hrk0 hrk
        · cases probs with
          | gen g => exact absurd rfl hu
          | dense arr =>
            have harr0 : arr = [] := by
              have hlen : ¬ 0 < arr.length := by
                intro hc
                exact hu (by simpa [probsUsable] using hc)
              exact List.eq_nil_of_length_eq_zero (by omega)
            rw [step_of_unusable L draw poolArg (Probs.dense arr) h0 hpv hu]
            exact ⟨fun _ => Or.inr (Or.inr (Or.inl ⟨arr, hpv, harr0⟩)),
              fun _ => ⟨rfl, rfl⟩⟩
    · have h0' : (resolvePool L.dataset.pool L.maxSample draw poolArg).1.length = 0 := by
        omega
      rw [step_of_empty_pool L draw poolArg h0']
      exact ⟨fun _ => Or.inl h0', fun _ => ⟨rfl, rfl⟩⟩
  · intro h0
    rw [step_of_empty_pool L draw poolArg h0]

/-- Witness for the amended C5: on a fully-labelled dataset (empty internal
pool), `step()` never invokes the Probability Source. -/
theorem step_false_iff_soft_failure_witness :
    (step emptyPoolLoop [] none).probsCalledOn = none :=
  (step_false_iff_soft_failure emptyPoolLoop [] none).2 (by decide)

/-- C6: when the Probability Source returns a generator (lazy/streamed
result), `step()` never treats it as empty — it is handed to the Ranking
Heuristic unconditionally, with no length check. -/
theorem step_generator_passed_through {α π γ σ υ : Type} [Inhabited α]
    (L : Loop α π γ σ υ) (draw : List Nat) (poolArg : Option (List α)) (g : γ)
    (hpool : 0 < (resolvePool L.dataset.pool L.maxSample draw poolArg).1.length)
    (hp : L.getProbabilities (resolvePool L.dataset.pool L.maxSample draw poolArg).1 =
      some (Probs.gen g)) :
    (step L draw poolArg).heuristicCalledOn = some (Probs.gen g) := by
  have hstep := step_eq_rankStage L draw poolArg (Probs.gen g) hpool hp rfl
  rw [hstep, rankStage_heuristicCalledOn]

/-- Witness for C6: a loop whose Probability Source streams a generator. -/
theorem step_generator_passed_through_witness :
    (step genLoop [] none).heuristicCalledOn = some (Probs.gen 7) :=
  step_generator_passed_through genLoop [] none 7 (by decide) rfl

/-- C7: for an explicitly supplied pool of any size, no index map is
computed (`indices is None`) and translation is skipped: the heuristic's
ranking indices are handed to `dataset.label` as-is, and any snapshot
records `indices = None`. -/
theorem step_explicit_pool_passthrough {α π γ σ υ : Type} [Inhabited α]
    (L : Loop α π γ σ υ) (draw : List Nat) (p : List α) (probs : Probs π γ)
    (hne : 0 < p.length)
    (hp : L.getProbabilities p = some probs)
    (hu : probsUsable probs = true)
    (hrk : 0 < (L.heuristic probs).1.length) :
    (resolvePool L.dataset.pool L.maxSample draw (some p)).2 = none
    ∧ (step L draw (some p)).labelled = some ((L.heuristic probs).1.take L.ndataToLabel)
    ∧ (step L draw (some p)).snapshot = L.uncertaintyFolder.map (fun folder =>
        { path := folder ++ "/" ++ uncertaintyName p.length L.dataset.labelledCount,
          indices := none, uncertainty := (L.heuristic probs).2,
          datasetState := L.dataset.state }) := by
  have hres : resolvePool L.dataset.pool L.maxSample draw (some p) = (p, none) := rfl
  have hpool : 0 < (resolvePool L.dataset.pool L.maxSample draw (some p)).1.length := by
    rw [hres]; exact hne
  have hp' : L.getProbabilities (resolvePool L.dataset.pool L.maxSample draw (some p)).1
      = some probs := by rw [hres]; exact hp
  have hstep := step_eq_rankStage L draw (some p) probs hpool hp' hu
  refine ⟨by rw [hres], ?_, ?_⟩
  · rw [hstep, hres, (rankStage_labelled_of_pos L p none probs hrk).2]
    rfl
  · rw [hstep, hres, rankStage_snapshot]

/-- Witness for C7: an explicit pool `[4,5,6]` passed to the scenario loop —
the ranks `[3,0,1,4,2]` are labelled untranslated (`take 2 = [3,0]`), even
though they are local indices. -/
theorem step_explicit_pool_passthrough_witness :
    (resolvePool scenarioLoop.dataset.pool scenarioLoop.maxSample [] (some [4, 5, 6])).2 = none
    ∧ (step scenarioLoop [] (some [4, 5, 6])).labelled =
        some ((scenarioLoop.heuristic (Probs.dense [4, 5, 6])).1.take
          scenarioLoop.ndataToLabel)
    ∧ (step scenarioLoop [] (some [4, 5, 6])).snapshot =
        scenarioLoop.uncertaintyFolder.map (fun folder =>
          { path := folder ++ "/" ++ uncertaintyName (3 : Nat)
              scenarioLoop.dataset.labelledCount,
            indices := none,
            uncertainty := (scenarioLoop.heuristic (Probs.dense [4, 5, 6])).2,
            datasetState := scenarioLoop.dataset.state }) :=
  step_explicit_pool_passthrough scenarioLoop [] [4, 5, 6] (Probs.dense [4, 5, 6])
    (by decide) rfl rfl (by decide)

/-- C8: when a snapshot folder is configured and the ranking stage is
reached, exactly one record is written, at path
`<folder>/uncertainty_pool=<P>_labelled=<L>.pkl` (`P` the working-pool
size, `L` the total labelled count), containing the index map (`indices`),
the full uncertainty array from the heuristic (`uncertainty`) and the Pool
Provider's opaque `state_dict` (`dataset`); in the §8 scenario (working
pool 8, 20 labelled) the file is `uncertainty_pool=8_labelled=20.pkl` with
an uncertainty array of length 8. -/
theorem step_snapshot_record {α π γ σ υ : Type} [Inhabited α]
    (L : Loop α π γ σ υ) (draw : List Nat) (poolArg : Option (List α))
    (probs : Probs π γ) (folder : String)
    (hpool : 0 < (resolvePool L.dataset.pool L.maxSample draw poolArg).1.length)
    (hp : L.getProbabilities (resolvePool L.dataset.pool L.maxSample draw poolArg).1 = some probs)
    (hu : probsUsable probs = true)
    (hf : L.uncertaintyFolder = some folder) :
    (step L draw poolArg).snapshot = some
      { path := folder ++ "/" ++
          uncertaintyName (resolvePool L.dataset.pool L.maxSample draw poolArg).1.length
            L.dataset.labelledCount,
        indices := (resolvePool L.dataset.pool L.maxSample draw poolArg).2,
        uncertainty := (L.heuristic probs).2,
        datasetState := L.dataset.state }
    ∧ uncertaintyName 8 20 = "uncertainty_pool=8_labelled=20.pkl"
    ∧ (step snapshotLoop [] none).snapshot.map (fun s => s.path) =
        some "unc/uncertainty_pool=8_labelled=20.pkl"
    ∧ (step snapshotLoop [] none).snapshot.map (fun s => s.uncertainty.length) = some 8 := by
  have hstep := step_eq_rankStage L draw poolArg probs hpool hp hu
  refine ⟨?_, by rfl, by rfl, by rfl⟩
  rw [hstep, rankStage_snapshot, hf]
  rfl

/-- Witness for C8: the snapshot-scenario loop writes
`unc/uncertainty_pool=8_labelled=20.pkl` with the identity index map and
the heuristic's 8 uncertainties. -/
theorem step_snapshot_record_witness :
    (step snapshotLoop [] none).snapshot = some
      { path := "unc" ++ "/" ++
          uncertaintyName (resolvePool snapshotLoop.dataset.pool snapshotLoop.maxSample
            [] none).1.length snapshotLoop.dataset.labelledCount,
        indices := (resolvePool snapshotLoop.dataset.pool snapshotLoop.maxSample [] none).2,
        uncertainty := (snapshotLoop.heuristic (Probs.dense (List.range 8))).2,
        datasetState := snapshotLoop.dataset.state } :=
  (step_snapshot_record snapshotLoop [] none (Probs.dense (List.range 8)) "unc"
    (by decide) rfl rfl rfl).1

/-- C9: `step()` catches no errors: an exception raised by the Probability
Source, the Ranking Heuristic, `state_dict`, the snapshot sink, or `label`
propagates to the caller unchanged, with no retry — formalised over the
`Except`-monad embedding `stepE`, one propagation statement per
collaborator.  The `label` statement covers every run that reaches the
`label` call: snapshot storage disabled, or enabled with `state_dict` and
the sink succeeding. -/
theorem stepE_propagates_errors {ε α π γ σ υ : Type} [Inhabited α]
    (L : LoopE ε α π γ σ υ) (draw : List Nat) (poolArg : Option (List α)) (e : ε)
    (hpos : 0 < (resolvePool L.datasetPool L.maxSample draw poolArg).1.length) :
    (L.getProbabilities (resolvePool L.datasetPool L.maxSample draw poolArg).1 =
        Except.error e → stepE L draw poolArg = Except.error e)
    ∧ (∀ probs, L.getProbabilities (resolvePool L.datasetPool L.maxSample draw poolArg).1 =
        Except.ok (some probs) → probsUsable probs = true →
        ((L.heuristic probs = Except.error e → stepE L draw poolArg = Except.error e)
        ∧ ∀ r, L.heuristic probs = Except.ok r →
          ((∀ folder, L.uncertaintyFolder = some folder →
            ((L.stateDict = Except.error e → stepE L draw poolArg = Except.error e)
            ∧ ∀ st, L.stateDict = Except.ok st →
              L.dump
                { path := folder ++ "/" ++
                    uncertaintyName
                      (resolvePool L.datasetPool L.maxSample draw poolArg).1.length
                      L.labelledCount,
                  indices := (resolvePool L.datasetPool L.maxSample draw poolArg).2,
                  uncertainty := r.2, datasetState := st } = Except.error e →
              stepE L draw poolArg = Except.error e))
          ∧ ((L.uncertaintyFolder = none ∨
              (∃ folder st, L.uncertaintyFolder = some folder ∧ L.stateDict = Except.ok st ∧
                L.dump
                  { path := folder ++ "/" ++
                      uncertaintyName
                        (resolvePool L.datasetPool L.maxSample draw poolArg).1.length
                        L.labelledCount,
                    indices := (resolvePool L.datasetPool L.maxSample draw poolArg).2,
                    uncertainty := r.2, datasetState := st } = Except.ok ())) →
              0 < (translate (resolvePool L.datasetPool L.maxSample draw poolArg).2
                r.1).length →
              L.labelCall ((translate (resolvePool L.datasetPool L.maxSample draw poolArg).2
                r.1).take L.ndataToLabel) = Except.error e →
              stepE L draw poolArg = Except.error e)))) := by
  refine ⟨?_, ?_⟩
  · intro hp
    unfold stepE
    rw [if_pos hpos, hp]
  · intro probs hp hu
    refine ⟨?_, ?_⟩
    · intro hh
      unfold stepE
      rw [if_pos hpos, hp]
      dsimp only
      rw [if_pos hu, hh]
    · intro r hh
      refine ⟨?_, ?_⟩
      · intro folder hf
        refine ⟨?_, ?_⟩
        · intro hst
          unfold stepE
          rw [if_pos hpos, hp]
          dsimp only
          rw [if_pos hu, hh]
          dsimp only
          rw [hf, hst]
        · intro st hst hd
          unfold stepE
          rw [if_pos hpos, hp]
          dsimp only
          rw [if_pos hu, hh]
          dsimp only
          rw [hf, hst]
          dsimp only
          rw [hd]
      · intro hsnap hlen hl
        rcases hsnap with hf | ⟨folder, st, hf, hst, hdOk⟩
        · unfold stepE
          rw [if_pos hpos, hp]
          dsimp only
          rw [if_pos hu, hh]
          dsimp only
          rw [hf]
          dsimp only
          rw [if_pos hlen, hl]
        · unfold stepE
          rw [if_pos hpos, hp]
          dsimp only
          rw [if_pos hu, hh]
          dsimp only
          rw [hf, hst]
          dsimp only
          rw [hdOk]
          dsimp only
          rw [if_pos hlen, hl]

/-- Witness for C9: a raising Probability Source propagates its error out
of `stepE` unchanged, and so does a raising `label` call in a
snapshot-enabled run whose snapshot succeeded. -/
theorem stepE_propagates_errors_witness :
    stepE errorLoop [] none = Except.error "boom"
    ∧ stepE labelErrorLoop [] none = Except.error "label failed" :=
  ⟨(stepE_propagates_errors errorLoop [] none "boom" (by decide)).1 rfl,
    ((((stepE_propagates_errors labelErrorLoop [] none "label failed" (by decide)).2
        (Probs.dense [0, 1, 2]) rfl rfl).2 ([2, 0, 1], [3, 2, 1]) rfl).2
      (Or.inr ⟨"unc", 0, rfl, rfl, rfl⟩) (by decide) rfl)⟩

/-- C10: a `False` return does not imply absence of side effects — with a
snapshot folder configured, a non-empty working pool, usable probabilities
and an empty heuristic ranking, the snapshot record (with the captured
`state_dict`) is still written although `step()` returns `False` and labels
nothing. -/
theorem step_snapshot_written_despite_false {α π γ σ υ : Type} [Inhabited α]
    (L : Loop α π γ σ υ) (draw : List Nat) (poolArg : Option (List α))
    (probs : Probs π γ) (folder : String)
    (hpool : 0 < (resolvePool L.dataset.pool L.maxSample draw poolArg).1.length)
    (hp : L.getProbabilities (resolvePool L.dataset.pool L.maxSample draw poolArg).1 = some probs)
    (hu : probsUsable probs = true)
    (hf : L.uncertaintyFolder = some folder)
    (hrk : (L.heuristic probs).1 = []) :
    (step L draw poolArg).continueTraining = false
    ∧ (step L draw poolArg).labelled = none
    ∧ (step L draw poolArg).snapshot = some
        { path := folder ++ "/" ++
            uncertaintyName (resolvePool L.dataset.pool L.maxSample draw poolArg).1.length
              L.dataset.labelledCount,
          indices := (resolvePool L.dataset.pool L.maxSample draw poolArg).2,
          uncertainty := (L.heuristic probs).2,
          datasetState := L.dataset.state } := by
  have hstep := step_eq_rankStage L draw poolArg probs hpool hp hu
  have hl := rankStage_labelled_of_empty L
    (resolvePool L.dataset.pool L.maxSample draw poolArg).1
    (resolvePool L.dataset.pool L.maxSample draw poolArg).2 probs hrk
  refine ⟨by rw [hstep]; exact hl.1, by rw [hstep]; exact hl.2, ?_⟩
  rw [hstep, rankStage_snapshot, hf]
  rfl

/-- Witness for C10: `emptyRankLoop` returns `False`, labels nothing, yet
writes `unc/uncertainty_pool=3_labelled=0.pkl`. -/
theorem step_snapshot_written_despite_false_witness :
    (step emptyRankLoop [] none).continueTraining = false
    ∧ (step emptyRankLoop [] none).labelled = none
    ∧ (step emptyRankLoop [] none).snapshot = some
        { path := "unc" ++ "/" ++
            uncertaintyName (resolvePool emptyRankLoop.dataset.pool emptyRankLoop.maxSample
              [] none).1.length emptyRankLoop.dataset.labelledCount,
          indices := (resolvePool emptyRankLoop.dataset.pool emptyRankLoop.maxSample
            [] none).2,
          uncertainty := (emptyRankLoop.heuristic (Probs.dense [0, 1, 2])).2,
          datasetState := emptyRankLoop.dataset.state } :=
  step_snapshot_written_despite_false emptyRankLoop [] none (Probs.dense [0, 1, 2]) "unc"
    (by decide) rfl rfl rfl rfl

end ActiveLoop
